import Mathlib

/-!
Verification of the snapshot builder and distribution service in
`building_map_tools/building_map_server/building_map_server.py`.

The Python code walks an in-memory building model (levels, doors, lifts,
derived navigation graphs) and produces a `BuildingMap` message tree, then
serves that one message both on a latched topic and through the
`get_building_map` service.

Embedding conventions:
* Scalar numeric values (coordinates, elevation, scale, ...) are IEEE
  doubles in Python.  None of the verified claims depends on float
  arithmetic — values are only copied verbatim — so the embedding is
  parametric in a scalar type `α`, and Python's `float(...)` string
  conversion is abstracted as a caller-supplied `parseFloat : String →
  Option α` (`none` models `ValueError`).
* Python exceptions (`KeyError`, `IndexError`, `ValueError`, `IOError`)
  become `Except String`; an uncaught exception aborts the build, modelled
  by the error propagating through the monad.
* Reading image bytes from disk is abstracted by `readFile : String →
  Option (List Nat)`; `none` models a failed `open`/`read`.
* Python dicts iterated with `.items()` keep insertion order, so
  `building.levels` / `building.lifts` are association lists in insertion
  order; a door's parameter bag is an association list as well, with
  `lookup` raising `KeyError` when the key is absent.
-/

namespace BMapServer

/-- A vertex of a level, as used by `level.vertices[idx].x/.y`. -/
structure VertexModel (α : Type) where
  x : α
  y : α
  deriving DecidableEq

/-- The floor-plan transform, used by `level.transform.scale`,
`level.transform.translation[0]/[1]`, `level.transform.rotation`. -/
structure TransformModel (α : Type) where
  scale : α
  translation : α × α
  rotation : α
  deriving DecidableEq

/-- A door of the source model: two endpoint indices into the level's
vertex list (Python ints, so possibly negative) and the named-parameter
bag; only the `.value` of each parameter is ever read, so a parameter is
modelled by its value string. -/
structure DoorModel where
  start_idx : Int
  end_idx : Int
  params : List (String × String)
  deriving DecidableEq

/-- One vertex of a generated navigation graph: `v[0]`, `v[1]`,
`v[2]['name']`. -/
structure NavVertexModel (α : Type) where
  x : α
  y : α
  name : String
  deriving DecidableEq

/-- One lane of a generated navigation graph: `l[0]`, `l[1]`,
`l[2]['is_bidirectional']`. -/
structure NavLaneModel where
  idx1 : Nat
  idx2 : Nat
  is_bidirectional : Bool
  deriving DecidableEq

/-- The dict returned by `level.generate_nav_graph(i, always_unidirectional)`. -/
structure NavGraphData (α : Type) where
  vertices : List (NavVertexModel α)
  lanes : List NavLaneModel

/-- A level of the building model, with exactly the attributes the server
reads.  `drawing_name` is the floor-plan reference; Python tests it for
truthiness, so the empty string means "no reference".
`generate_nav_graph` is the model's navigation-graph generator. -/
structure LevelModel (α : Type) where
  name : String
  elevation : α
  drawing_name : String
  transform : TransformModel α
  vertices : List (VertexModel α)
  doors : List DoorModel
  generate_nav_graph : Nat → Bool → NavGraphData α

/-- A lift of the building model, with the attributes read by `lift_msg`. -/
structure LiftModel (α : Type) where
  name : String
  level_names : List String
  x : α
  y : α
  yaw : α
  width : α
  depth : α
  deriving DecidableEq

/-- The building model: name plus the `levels` and `lifts` dicts, kept as
association lists in insertion order (Python dicts preserve it). -/
structure BuildingModel (α : Type) where
  name : String
  levels : List (String × LevelModel α)
  lifts : List (String × LiftModel α)

/-! Wire message types (`building_map_msgs`). -/

/-- The `Door.door_type` enum constants. -/
inductive DoorType where
  | undefined
  | single_sliding
  | single_swing
  | double_sliding
  | double_swing
  deriving DecidableEq

/-- The `GraphEdge.edge_type` enum constants. -/
inductive EdgeType where
  | bidirectional
  | unidirectional
  deriving DecidableEq

/-- `AffineImage` message. -/
structure AffineImage (α : Type) where
  encoding : String
  scale : α
  x_offset : α
  y_offset : α
  yaw : α
  data : List Nat
  deriving DecidableEq

/-- `Door` message. -/
structure DoorMsg (α : Type) where
  door_name : String
  v1_x : α
  v1_y : α
  v2_x : α
  v2_y : α
  motion_range : α
  motion_direction : String
  door_type : DoorType
  deriving DecidableEq

/-- `GraphNode` message. -/
structure GraphNodeMsg (α : Type) where
  x : α
  y : α
  name : String
  deriving DecidableEq

/-- `GraphEdge` message. -/
structure GraphEdgeMsg where
  v1_idx : Nat
  v2_idx : Nat
  edge_type : EdgeType
  deriving DecidableEq

/-- `Graph` message. -/
structure GraphMsg (α : Type) where
  name : String
  vertices : List (GraphNodeMsg α)
  edges : List GraphEdgeMsg
  deriving DecidableEq

/-- `Level` message. -/
structure LevelMsg (α : Type) where
  name : String
  elevation : α
  images : List (AffineImage α)
  doors : List (DoorMsg α)
  nav_graphs : List (GraphMsg α)
  deriving DecidableEq

/-- `Lift` message. -/
structure LiftMsg (α : Type) where
  name : String
  levels : List String
  ref_x : α
  ref_y : α
  ref_yaw : α
  width : α
  depth : α
  deriving DecidableEq

/-- `BuildingMap` message. -/
structure BuildingMap (α : Type) where
  name : String
  levels : List (LevelMsg α)
  lifts : List (LiftMsg α)
  deriving DecidableEq

/-! Helper semantics of the Python primitives the server uses. -/

/-- Python's `str.split(sep)` for a one-character separator: splits on
every occurrence, keeping empty segments, and returns `[s]` when the
separator does not occur (`''.split('.') == ['']`). -/
def pySplit (c : Char) : List Char → List (List Char)
  | [] => [[]]
  | x :: xs =>
    if x = c then [] :: pySplit c xs
    else
      match pySplit c xs with
      | [] => [[x]]
      | h :: t => (x :: h) :: t

/-- `s.split(c)[-1]`: the segment after the last occurrence of `c`
(the whole string when `c` does not occur). -/
def pyLastSplit (c : Char) (s : String) : String :=
  String.mk ((pySplit c s.data).getLastD [])

/-- Python list indexing `xs[i]` for an `int` index: non-negative indices
count from the front, negative indices from the back, and anything out of
range raises `IndexError` (modelled by `none`). -/
def pyGet {β : Type} (xs : List β) (i : Int) : Option β :=
  if 0 ≤ i then xs.get? i.toNat
  else if 0 ≤ (xs.length : Int) + i then xs.get? ((xs.length : Int) + i).toNat
  else none

/-- `os.path.join(dir, fn)` for the relative file names the map uses. -/
def pathJoin (dir fn : String) : String :=
  if dir = "" then fn else dir ++ "/" ++ fn

/-- Dict access `params[key].value`: `KeyError` when the key is absent. -/
def getParam (params : List (String × String)) (key : String) : Except String String :=
  match params.lookup key with
  | some v => Except.ok v
  | none => Except.error ("KeyError: " ++ key)

/-- `level.vertices[i]` with exception propagation. -/
def getVertex {α : Type} (vertices : List (VertexModel α)) (i : Int) :
    Except String (VertexModel α) :=
  match pyGet vertices i with
  | some v => Except.ok v
  | none => Except.error "IndexError: list index out of range"

/-- Python's `float(s)` applied to a parameter value: `ValueError` when the
string does not parse (the parse itself is the abstracted `parseFloat`). -/
def pyFloat {α : Type} (parseFloat : String → Option α) (s : String) :
    Except String α :=
  match parseFloat s with
  | some f => Except.ok f
  | none => Except.error "ValueError: could not convert string to float"

/-- The `if/elif` chain translating `door.params['type'].value` into the
`Door.door_type` constant (lines 108-118 of the source). -/
def doorTypeOf (door_type : String) : DoorType :=
  if door_type = "sliding" then DoorType.single_sliding
  else if door_type = "hinged" then DoorType.single_swing
  else if door_type = "double_sliding" then DoorType.double_sliding
  else if door_type = "double_hinged" then DoorType.double_swing
  else DoorType.undefined

/-- The Python `for` loop that builds a list, aborting the whole build on
the first exception. -/
def mapExcept {ε β γ : Type} (f : β → Except ε γ) : List β → Except ε (List γ)
  | [] => Except.ok []
  | x :: xs => do
    let y ← f x
    let ys ← mapExcept f xs
    Except.ok (y :: ys)

/-! The builder, one definition per stage of `level_msg` /
`building_map_msg` / `lift_msg` / `get_building_map`. -/

/-- The body of the door loop in `level_msg` (lines 97-119): field reads in
source order — `name`, the two endpoint vertices, `motion_degrees` (dict
access then `float(...)`), `motion_direction`, `type`. -/
def door_msg {α : Type} (parseFloat : String → Option α)
    (vertices : List (VertexModel α)) (door : DoorModel) :
    Except String (DoorMsg α) := do
  let door_name ← getParam door.params "name"
  let v1 ← getVertex vertices door.start_idx
  let v2 ← getVertex vertices door.end_idx
  let motion_degrees ← getParam door.params "motion_degrees"
  let motion_range ← pyFloat parseFloat motion_degrees
  let motion_direction ← getParam door.params "motion_direction"
  let door_type ← getParam door.params "type"
  Except.ok
    { door_name := door_name
      v1_x := v1.x
      v1_y := v1.y
      v2_x := v2.x
      v2_y := v2.y
      motion_range := motion_range
      motion_direction := motion_direction
      door_type := doorTypeOf door_type }

/-- The image block of `level_msg` (lines 78-94): nothing when
`level.drawing_name` is falsy; otherwise one `AffineImage` whose encoding
is `image_filename.split('.')[-1]` and whose data are the bytes of the
file at `os.path.join(map_dir, image_filename)` (a failed open/read is a
fatal `IOError`). -/
def imagesOf {α : Type} (readFile : String → Option (List Nat))
    (map_dir : String) (level : LevelModel α) :
    Except String (List (AffineImage α)) :=
  if level.drawing_name = "" then Except.ok []
  else
    let image_filename := level.drawing_name
    let image_path := pathJoin map_dir image_filename
    match readFile image_path with
    | none => Except.error ("IOError: cannot open " ++ image_path)
    | some bytes =>
      Except.ok
        [{ encoding := pyLastSplit '.' image_filename
           scale := level.transform.scale
           x_offset := level.transform.translation.1
           y_offset := level.transform.translation.2
           yaw := level.transform.rotation
           data := bytes }]

/-- Translation of one generated navigation graph (lines 126-142):
vertices become `GraphNode`s, lanes become `GraphEdge`s whose type is
bidirectional exactly when the lane's flag is set. -/
def graph_msg {α : Type} (i : Nat) (g : NavGraphData α) : GraphMsg α :=
  { name := toString i
    vertices := g.vertices.map (fun v => { x := v.x, y := v.y, name := v.name })
    edges := g.lanes.map (fun l =>
      { v1_idx := l.idx1
        v2_idx := l.idx2
        edge_type :=
          if l.is_bidirectional then EdgeType.bidirectional
          else EdgeType.unidirectional }) }

/-- One iteration of the nav-graph loop (lines 123-125): call the
generator with `always_unidirectional=False`; `continue` (i.e. `none`)
when the lane list is empty. -/
def nav_graph_entry {α : Type} (gen : Nat → Bool → NavGraphData α)
    (i : Nat) : Option (GraphMsg α) :=
  let g := gen i false
  if g.lanes.isEmpty then none else some (graph_msg i g)

/-- The nav-graph loop of `level_msg` (lines 122-143): `for i in
range(0, 9)`, skip graphs with an empty lane list, name the rest `str(i)`. -/
def nav_graphs_msgs {α : Type} (gen : Nat → Bool → NavGraphData α) :
    List (GraphMsg α) :=
  (List.range 9).filterMap (nav_graph_entry gen)

/-- `level_msg` (lines 74-144): name and elevation are copied, then the
image block runs, then the door loop, then the nav-graph loop; the first
exception aborts everything. -/
def level_msg {α : Type} (parseFloat : String → Option α)
    (readFile : String → Option (List Nat)) (map_dir : String)
    (level : LevelModel α) : Except String (LevelMsg α) := do
  let images ← imagesOf readFile map_dir level
  let doors ← mapExcept (door_msg parseFloat level.vertices) level.doors
  Except.ok
    { name := level.name
      elevation := level.elevation
      images := images
      doors := doors
      nav_graphs := nav_graphs_msgs level.generate_nav_graph }

/-- `lift_msg` (lines 146-155): verbatim field copies, no failure path. -/
def lift_msg {α : Type} (lift : LiftModel α) : LiftMsg α :=
  { name := lift.name
    levels := lift.level_names
    ref_x := lift.x
    ref_y := lift.y
    ref_yaw := lift.yaw
    width := lift.width
    depth := lift.depth }

/-- `building_map_msg` (lines 65-72): levels then lifts, each appended in
the model's insertion order. -/
def building_map_msg {α : Type} (parseFloat : String → Option α)
    (readFile : String → Option (List Nat)) (map_dir : String)
    (building : BuildingModel α) : Except String (BuildingMap α) := do
  let levels ← mapExcept (fun p => level_msg parseFloat readFile map_dir p.2)
    building.levels
  Except.ok
    { name := building.name
      levels := levels
      lifts := building.lifts.map (fun p => lift_msg p.2) }

/-! The distribution service (`get_building_map`, lines 157-161). -/

/-- The server state after startup: the single prebuilt message
(`self.map_msg`); nothing in the handler writes to it. -/
structure ServerState (α : Type) where
  map_msg : BuildingMap α
  deriving DecidableEq

/-- The `GetBuildingMap` service response. -/
structure GetBuildingMapResponse (α : Type) where
  building_map : BuildingMap α
  deriving DecidableEq

/-- The service handler: stores `self.map_msg` into the response and
returns it; the request is never inspected and the state is returned
unchanged. -/
def get_building_map {α ρ : Type} (state : ServerState α) (_request : ρ)
    (response : GetBuildingMapResponse α) :
    GetBuildingMapResponse α × ServerState α :=
  ({ response with building_map := state.map_msg }, state)

/-- A sequence of service calls threaded through the server state,
collecting the responses in order. -/
def run_fetches {α ρ : Type} (state : ServerState α)
    (calls : List (ρ × GetBuildingMapResponse α)) :
    List (GetBuildingMapResponse α) × ServerState α :=
  match calls with
  | [] => ([], state)
  | (req, resp) :: rest =>
    let r := get_building_map state req resp
    let rs := run_fetches r.2 rest
    (r.1 :: rs.1, rs.2)

/-- `true` exactly on the error branch of an `Except`. -/
def isError {ε β : Type} : Except ε β → Bool
  | Except.error _ => true
  | Except.ok _ => false

/-- ASCII lowercasing, character by character: the normalisation the spec
asks for when it says the encoding is the "lowercase substring". -/
def lowerStr (s : String) : String :=
  String.mk (s.data.map Char.toLower)

/-! Basic lemmas about the embedding's primitives. -/

theorem isError_eq_true_iff {ε β : Type} (x : Except ε β) :
    isError x = true ↔ ∀ b, x ≠ Except.ok b := by
  cases x <;> simp [isError]

theorem exceptBind_ok_iff {ε β γ : Type} (x : Except ε β) (f : β → Except ε γ)
    (c : γ) : (x >>= f) = Except.ok c ↔ ∃ b, x = Except.ok b ∧ f b = Except.ok c := by
  cases x <;> simp [Bind.bind, Except.bind]

theorem mapExcept_nil {ε β γ : Type} (f : β → Except ε γ) :
    mapExcept f [] = Except.ok [] := rfl

theorem mapExcept_cons_ok_iff {ε β γ : Type} (f : β → Except ε γ) (x : β)
    (xs : List β) (ys : List γ) :
    mapExcept f (x :: xs) = Except.ok ys ↔
      ∃ y zs, f x = Except.ok y ∧ mapExcept f xs = Except.ok zs ∧ ys = y :: zs := by
  simp only [mapExcept, exceptBind_ok_iff, Except.ok.injEq]
  constructor
  · rintro ⟨y, hy, zs, hzs, h⟩
    exact ⟨y, zs, hy, hzs, h.symm⟩
  · rintro ⟨y, zs, hy, hzs, h⟩
    exact ⟨y, hy, zs, hzs, h.symm⟩

theorem mapExcept_ok_of_mem {ε β γ : Type} {f : β → Except ε γ} :
    ∀ {xs : List β} {ys : List γ}, mapExcept f xs = Except.ok ys →
      ∀ a ∈ xs, ∃ b, f a = Except.ok b := by
  intro xs
  induction xs with
  | nil => intro ys _ a ha; cases ha
  | cons x xs ih =>
    intro ys h a ha
    rw [mapExcept_cons_ok_iff] at h
    obtain ⟨y, zs, hy, hzs, rfl⟩ := h
    rcases List.mem_cons.mp ha with rfl | ha
    · exact ⟨y, hy⟩
    · exact ih hzs a ha

theorem mapExcept_map_eq {ε β γ δ : Type} {f : β → Except ε γ} {g : γ → δ}
    {g' : β → δ} (hfg : ∀ a b, f a = Except.ok b → g b = g' a) :
    ∀ {xs : List β} {ys : List γ}, mapExcept f xs = Except.ok ys →
      ys.map g = xs.map g' := by
  intro xs
  induction xs with
  | nil =>
    intro ys h
    cases h
    rfl
  | cons x xs ih =>
    intro ys h
    rw [mapExcept_cons_ok_iff] at h
    obtain ⟨y, zs, hy, hzs, rfl⟩ := h
    simp [hfg x y hy, ih hzs]

theorem pyGet_none_of_len_le {β : Type} (xs : List β) (i : Int)
    (h : (xs.length : Int) ≤ i) : pyGet xs i = none := by
  have h0 : 0 ≤ i := le_trans (Int.ofNat_nonneg _) h
  have hlen : xs.length ≤ i.toNat := by omega
  unfold pyGet
  rw [if_pos h0]
  exact List.get?_eq_none.mpr hlen

theorem pyGet_neg {β : Type} (xs : List β) (i : Int) (hneg : i < 0)
    (hge : 0 ≤ (xs.length : Int) + i) :
    pyGet xs i = xs.get? ((xs.length : Int) + i).toNat := by
  simp [pyGet, not_le.mpr hneg, hge]

theorem pySplit_ne_nil (c : Char) : ∀ l : List Char, pySplit c l ≠ [] := by
  intro l
  induction l with
  | nil => simp [pySplit]
  | cons x xs ih =>
    by_cases hx : x = c
    · simp [pySplit, hx]
    · simp only [pySplit, if_neg hx]
      cases hps : pySplit c xs with
      | nil => exact absurd hps ih
      | cons h t => simp

theorem pySplit_of_not_mem (c : Char) : ∀ l : List Char, c ∉ l →
    pySplit c l = [l] := by
  intro l
  induction l with
  | nil => intro _; rfl
  | cons x xs ih =>
    intro hmem
    have hx : ¬ (x = c) := fun h => hmem (h ▸ List.mem_cons_self x xs)
    have hxs : c ∉ xs := fun h => hmem (List.mem_cons_of_mem x h)
    simp [pySplit, hx, ih hxs]

theorem pySplit_append_cons (c : Char) :
    ∀ a b : List Char, pySplit c (a ++ c :: b) = pySplit c a ++ pySplit c b := by
  intro a b
  induction a with
  | nil => simp [pySplit]
  | cons x xs ih =>
    by_cases hx : x = c
    · simp [pySplit, hx, ih]
    · cases hps : pySplit c xs with
      | nil => exact absurd hps (pySplit_ne_nil c xs)
      | cons h t =>
        simp only [List.cons_append, pySplit, if_neg hx, List.append_eq]
        rw [ih, hps]
        simp

theorem getLastD_append_of_ne_nil {β : Type} (d : β) :
    ∀ s t : List β, t ≠ [] → (s ++ t).getLastD d = t.getLastD d := by
  intro s t ht
  cases t with
  | nil => exact absurd rfl ht
  | cons y ys =>
    rw [List.getLastD_eq_getLast?, List.getLastD_eq_getLast?,
      List.getLast?_append_of_ne_nil _ ht]

theorem pyLastSplit_no_sep (c : Char) (s : String) (h : c ∉ s.data) :
    pyLastSplit c s = s := by
  simp [pyLastSplit, pySplit_of_not_mem c s.data h]

theorem pyLastSplit_suffix (pre suf : String) (h : '.' ∉ suf.data) :
    pyLastSplit '.' (pre ++ "." ++ suf) = suf := by
  have hdata : (pre ++ "." ++ suf).data = pre.data ++ '.' :: suf.data := by
    simp [String.data_append]
  rw [pyLastSplit, hdata, pySplit_append_cons, pySplit_of_not_mem '.' suf.data h]
  rw [getLastD_append_of_ne_nil _ _ _ (by simp)]
  simp

/-! Inversion lemmas characterising when each builder stage succeeds. -/

theorem getParam_ok_iff (params : List (String × String)) (key v : String) :
    getParam params key = Except.ok v ↔ params.lookup key = some v := by
  unfold getParam
  cases params.lookup key <;> simp

theorem getVertex_ok_iff {α : Type} (vertices : List (VertexModel α)) (i : Int)
    (v : VertexModel α) :
    getVertex vertices i = Except.ok v ↔ pyGet vertices i = some v := by
  unfold getVertex
  cases pyGet vertices i <;> simp

theorem pyFloat_ok_iff {α : Type} (parseFloat : String → Option α) (s : String)
    (f : α) : pyFloat parseFloat s = Except.ok f ↔ parseFloat s = some f := by
  unfold pyFloat
  cases parseFloat s <;> simp

theorem door_msg_ok_iff {α : Type} (parseFloat : String → Option α)
    (vertices : List (VertexModel α)) (door : DoorModel) (m : DoorMsg α) :
    door_msg parseFloat vertices door = Except.ok m ↔
      ∃ nm v1 v2 md f dir ty,
        door.params.lookup "name" = some nm ∧
        pyGet vertices door.start_idx = some v1 ∧
        pyGet vertices door.end_idx = some v2 ∧
        door.params.lookup "motion_degrees" = some md ∧
        parseFloat md = some f ∧
        door.params.lookup "motion_direction" = some dir ∧
        door.params.lookup "type" = some ty ∧
        m = { door_name := nm
              v1_x := v1.x
              v1_y := v1.y
              v2_x := v2.x
              v2_y := v2.y
              motion_range := f
              motion_direction := dir
              door_type := doorTypeOf ty } := by
  simp only [door_msg, exceptBind_ok_iff, getParam_ok_iff, getVertex_ok_iff,
    pyFloat_ok_iff, Except.ok.injEq]
  constructor
  · rintro ⟨nm, h1, v1, h2, v2, h3, md, h4, f, h5, dir, h6, ty, h7, h8⟩
    exact ⟨nm, v1, v2, md, f, dir, ty, h1, h2, h3, h4, h5, h6, h7, h8.symm⟩
  · rintro ⟨nm, v1, v2, md, f, dir, ty, h1, h2, h3, h4, h5, h6, h7, h8⟩
    exact ⟨nm, h1, v1, h2, v2, h3, md, h4, f, h5, dir, h6, ty, h7, h8.symm⟩

theorem imagesOf_ok_iff {α : Type} (readFile : String → Option (List Nat))
    (map_dir : String) (level : LevelModel α) (imgs : List (AffineImage α)) :
    imagesOf readFile map_dir level = Except.ok imgs ↔
      (level.drawing_name = "" ∧ imgs = []) ∨
      (level.drawing_name ≠ "" ∧
        ∃ bytes, readFile (pathJoin map_dir level.drawing_name) = some bytes ∧
          imgs = [{ encoding := pyLastSplit '.' level.drawing_name
                    scale := level.transform.scale
                    x_offset := level.transform.translation.1
                    y_offset := level.transform.translation.2
                    yaw := level.transform.rotation
                    data := bytes }]) := by
  unfold imagesOf
  by_cases hdn : level.drawing_name = ""
  · simp [hdn, eq_comm]
  · cases hrf : readFile (pathJoin map_dir level.drawing_name) <;>
      simp [hdn, hrf, eq_comm]

theorem level_msg_ok_iff {α : Type} (parseFloat : String → Option α)
    (readFile : String → Option (List Nat)) (map_dir : String)
    (level : LevelModel α) (m : LevelMsg α) :
    level_msg parseFloat readFile map_dir level = Except.ok m ↔
      ∃ imgs doors,
        imagesOf readFile map_dir level = Except.ok imgs ∧
        mapExcept (door_msg parseFloat level.vertices) level.doors =
          Except.ok doors ∧
        m = { name := level.name
              elevation := level.elevation
              images := imgs
              doors := doors
              nav_graphs := nav_graphs_msgs level.generate_nav_graph } := by
  simp only [level_msg, exceptBind_ok_iff, Except.ok.injEq]
  constructor
  · rintro ⟨imgs, h1, doors, h2, h3⟩
    exact ⟨imgs, doors, h1, h2, h3.symm⟩
  · rintro ⟨imgs, doors, h1, h2, h3⟩
    exact ⟨imgs, h1, doors, h2, h3.symm⟩

theorem level_msg_name {α : Type} {parseFloat : String → Option α}
    {readFile : String → Option (List Nat)} {map_dir : String}
    {level : LevelModel α} {m : LevelMsg α}
    (h : level_msg parseFloat readFile map_dir level = Except.ok m) :
    m.name = level.name := by
  rw [level_msg_ok_iff] at h
  obtain ⟨imgs, doors, -, -, rfl⟩ := h
  rfl

theorem building_map_msg_ok_iff {α : Type} (parseFloat : String → Option α)
    (readFile : String → Option (List Nat)) (map_dir : String)
    (building : BuildingModel α) (msg : BuildingMap α) :
    building_map_msg parseFloat readFile map_dir building = Except.ok msg ↔
      ∃ levels,
        mapExcept (fun p => level_msg parseFloat readFile map_dir p.2)
          building.levels = Except.ok levels ∧
        msg = { name := building.name
                levels := levels
                lifts := building.lifts.map (fun p => lift_msg p.2) } := by
  simp only [building_map_msg, exceptBind_ok_iff, Except.ok.injEq]
  constructor
  · rintro ⟨levels, h1, h2⟩
    exact ⟨levels, h1, h2.symm⟩
  · rintro ⟨levels, h1, h2⟩
    exact ⟨levels, h1, h2.symm⟩

/-! Concrete fixtures used to instantiate the theorems (the scalar type is
`Int` and `parseFloat` is a trivial parser accepting only `"90"`). -/

/-- A parser accepting only the string `"90"`, standing in for `float`. -/
def wPF : String → Option Int := fun s => if s = "90" then some 90 else none

/-- A file system in which every path holds the two bytes `[7, 7]`. -/
def wRF : String → Option (List Nat) := fun _ => some [7, 7]

/-- A file system with no readable files. -/
def wRFnone : String → Option (List Nat) := fun _ => none

def wVert0 : VertexModel Int := { x := 0, y := 0 }

def wVert1 : VertexModel Int := { x := 1, y := 0 }

def wParams : List (String × String) :=
  [("name", "door1"), ("motion_degrees", "90"),
   ("motion_direction", "1"), ("type", "hinged")]

def wDoor : DoorModel := { start_idx := 0, end_idx := 1, params := wParams }

/-- A generator with one bidirectional lane at index 0 and nothing else. -/
def wGen0 : Nat → Bool → NavGraphData Int := fun i _ =>
  if i = 0 then
    { vertices := [{ x := 0, y := 0, name := "wp" }],
      lanes := [{ idx1 := 0, idx2 := 1, is_bidirectional := true }] }
  else { vertices := [], lanes := [] }

/-- A generator returning no lanes at every index. -/
def wGenEmpty : Nat → Bool → NavGraphData Int := fun _ _ =>
  { vertices := [], lanes := [] }

def wTransform : TransformModel Int :=
  { scale := 1, translation := (2, 3), rotation := 0 }

/-- A well-formed level: an uppercase-suffix floor plan, two vertices, one
hinged door, one nav graph at index 0. -/
def wLevel : LevelModel Int :=
  { name := "L1", elevation := 0, drawing_name := "floor1.PNG",
    transform := wTransform, vertices := [wVert0, wVert1],
    doors := [wDoor], generate_nav_graph := wGen0 }

/-- A door referencing vertex 5 of a two-vertex level. -/
def wDoorBad : DoorModel := { start_idx := 5, end_idx := 1, params := wParams }

def wLevelBadIdx : LevelModel Int :=
  { name := "L2", elevation := 0, drawing_name := "",
    transform := wTransform, vertices := [wVert0, wVert1],
    doors := [wDoorBad], generate_nav_graph := wGenEmpty }

/-- A door with a parameter bag missing `motion_direction`. -/
def wDoorMissing : DoorModel :=
  { start_idx := 0, end_idx := 1,
    params := [("name", "door1"), ("motion_degrees", "90"), ("type", "hinged")] }

def wLevelMissing : LevelModel Int :=
  { name := "L3", elevation := 0, drawing_name := "",
    transform := wTransform, vertices := [wVert0, wVert1],
    doors := [wDoorMissing], generate_nav_graph := wGenEmpty }

/-- A door with an unrecognized `type` value. -/
def wDoorFoo : DoorModel :=
  { start_idx := 0, end_idx := 1,
    params := [("name", "door1"), ("motion_degrees", "90"),
               ("motion_direction", "1"), ("type", "foo")] }

/-- A door with negative endpoint indices (`-2` of a two-vertex list). -/
def wDoorNeg : DoorModel := { start_idx := -2, end_idx := 1, params := wParams }

/-- A door whose negative endpoint is the end one (`-1` of a two-vertex
list). -/
def wDoorNegEnd : DoorModel :=
  { start_idx := 0, end_idx := -1, params := wParams }

/-- A level whose floor-plan file name has no `.` at all. -/
def wLevelNoDot : LevelModel Int :=
  { name := "L4", elevation := 0, drawing_name := "floorimg",
    transform := wTransform, vertices := [], doors := [],
    generate_nav_graph := wGenEmpty }

/-- A level with no floor-plan reference. -/
def wLevelNoImage : LevelModel Int :=
  { name := "L5", elevation := 1, drawing_name := "",
    transform := wTransform, vertices := [], doors := [],
    generate_nav_graph := wGenEmpty }

def wLift : LiftModel Int :=
  { name := "lift1", level_names := ["L1"], x := 4, y := 5, yaw := 0,
    width := 2, depth := 2 }

def wBuilding : BuildingModel Int :=
  { name := "building1",
    levels := [("L1", wLevel), ("L5", wLevelNoImage)],
    lifts := [("lift1", wLift)] }

/-- The message `level_msg` builds from `wLevel`. -/
def wLevelMsg : LevelMsg Int :=
  { name := "L1", elevation := 0,
    images := [{ encoding := "PNG", scale := 1, x_offset := 2, y_offset := 3,
                 yaw := 0, data := [7, 7] }],
    doors := [{ door_name := "door1", v1_x := 0, v1_y := 0, v2_x := 1, v2_y := 0,
                motion_range := 90, motion_direction := "1",
                door_type := DoorType.single_swing }],
    nav_graphs := [{ name := "0",
                     vertices := [{ x := 0, y := 0, name := "wp" }],
                     edges := [{ v1_idx := 0, v2_idx := 1,
                                 edge_type := EdgeType.bidirectional }] }] }

/-- The message `level_msg` builds from `wLevelNoImage`. -/
def wLevelNoImageMsg : LevelMsg Int :=
  { name := "L5", elevation := 1, images := [], doors := [], nav_graphs := [] }

/-- The message `building_map_msg` builds from `wBuilding`. -/
def wBuildingMsg : BuildingMap Int :=
  { name := "building1", levels := [wLevelMsg, wLevelNoImageMsg],
    lifts := [{ name := "lift1", levels := ["L1"], ref_x := 4, ref_y := 5,
                ref_yaw := 0, width := 2, depth := 2 }] }

/-! Counting machinery for the nav-graph sparsity claim. -/

theorem nav_graph_entry_name {α : Type} {gen : Nat → Bool → NavGraphData α}
    {i : Nat} {g : GraphMsg α} (h : nav_graph_entry gen i = some g) :
    g.name = toString i := by
  unfold nav_graph_entry at h
  by_cases he : (gen i false).lanes.isEmpty <;> simp [he] at h
  rw [← h]
  rfl

theorem toString_inj_lt9 : ∀ i ∈ List.range 9, ∀ k ∈ List.range 9,
    i ≠ k → ¬ (toString i = toString k) := by decide

theorem filter_nav_entries {α : Type} (gen : Nat → Bool → NavGraphData α)
    (k : Nat) (hk : k < 9) :
    ∀ l : List Nat, (∀ i ∈ l, i < 9) → l.Nodup →
      ((l.filterMap (nav_graph_entry gen)).filter
          (fun g => g.name == toString k)) =
        (if k ∈ l then (nav_graph_entry gen k).toList else []) := by
  intro l
  induction l with
  | nil => intro _ _; simp
  | cons i l ih =>
    intro hall hnd
    have hi9 : i < 9 := hall i (List.mem_cons_self i l)
    have hall' : ∀ j ∈ l, j < 9 := fun j hj => hall j (List.mem_cons_of_mem i hj)
    have hnd' : l.Nodup := (List.nodup_cons.mp hnd).2
    have hind := ih hall' hnd'
    by_cases hik : i = k
    · subst hik
      have hkl : i ∉ l := (List.nodup_cons.mp hnd).1
      cases he : nav_graph_entry gen i with
      | none =>
        simp only [List.filterMap_cons, he, hind, if_neg hkl,
          List.mem_cons, true_or, if_pos, Option.toList_none]
      | some g =>
        have hname : g.name = toString i := nav_graph_entry_name he
        simp only [List.filterMap_cons, he, List.filter_cons, hname,
          beq_self_eq_true, if_pos, hind, if_neg hkl, List.mem_cons, true_or,
          Option.toList_some]
    · have hmem : (k ∈ i :: l) ↔ (k ∈ l) := by
        simp only [List.mem_cons]
        exact ⟨fun h => h.resolve_left fun hk' => hik hk'.symm, Or.inr⟩
      cases he : nav_graph_entry gen i with
      | none =>
        simp only [List.filterMap_cons, he, hind, if_congr hmem rfl rfl]
      | some g =>
        have hname : g.name = toString i := nav_graph_entry_name he
        have hne : (g.name == toString k) = false := by
          simp only [hname, beq_eq_false_iff_ne, ne_eq]
          exact toString_inj_lt9 i (List.mem_range.mpr hi9) k
            (List.mem_range.mpr hk) hik
        simp only [List.filterMap_cons, he, List.filter_cons, hne,
          Bool.false_eq_true, if_false, hind, if_congr hmem rfl rfl]

/-- Sequential service calls never change the state and always answer with
the stored message. -/
theorem run_fetches_spec {α ρ : Type} (s : ServerState α) :
    ∀ calls : List (ρ × GetBuildingMapResponse α),
      (run_fetches s calls).2 = s ∧
      (run_fetches s calls).1 =
        List.replicate calls.length { building_map := s.map_msg } := by
  intro calls
  induction calls with
  | nil => exact ⟨rfl, rfl⟩
  | cons c rest ih =>
    obtain ⟨req, resp⟩ := c
    simp only [run_fetches, get_building_map, List.length_cons,
      List.replicate_succ]
    exact ⟨ih.1, by rw [ih.2]⟩

/-! The claims. -/

/-- C1, as stated, is false on the code: for the level whose floor plan
file is `floor1.PNG`, the image entry's encoding is the literal suffix
`"PNG"` — the code never lowercases — while the claim demands the
lowercased suffix `"png"`, and the two strings differ. -/
theorem C1_counterexample :
    (level_msg wPF wRF "" wLevel).map
        (fun m => m.images.map (fun im => im.encoding)) = Except.ok ["PNG"]
    ∧ lowerStr "PNG" = "png"
    ∧ ("PNG" : String) ≠ "png" :=
  ⟨rfl, by decide, by decide⟩

/-- C1 (amended): for every level that declares a floor-plan reference,
the built image entry's encoding equals the substring of the filename
after the last `.`, with the source casing preserved (no lowercasing). -/
theorem C1_encoding_is_literal_suffix {α : Type} (parseFloat : String → Option α)
    (readFile : String → Option (List Nat)) (map_dir : String)
    (level : LevelModel α) (pre suf : String) (m : LevelMsg α)
    (hdn : level.drawing_name = pre ++ "." ++ suf)
    (hsuf : '.' ∉ suf.data)
    (h : level_msg parseFloat readFile map_dir level = Except.ok m) :
    m.images.map (fun im => im.encoding) = [suf] := by
  rw [level_msg_ok_iff] at h
  obtain ⟨imgs, doors, himgs, -, rfl⟩ := h
  rw [imagesOf_ok_iff] at himgs
  rcases himgs with ⟨hempty, rfl⟩ | ⟨-, bytes, -, rfl⟩
  · exfalso
    have hdata := congrArg String.data (hempty.symm.trans hdn)
    simp [String.data_append] at hdata
  · simp only [hdn, pyLastSplit_suffix pre suf hsuf]
    rfl

/-- Witness for the amended C1 at the concrete level `wLevel`. -/
theorem C1_encoding_is_literal_suffix_witness :
    wLevelMsg.images.map (fun im => im.encoding) = ["PNG"] :=
  C1_encoding_is_literal_suffix wPF wRF "" wLevel "floor1" "PNG" wLevelMsg
    rfl (by decide) rfl

/-- C2: a door whose start or end endpoint index is at least the number of
vertices of its level makes the whole level build fail; it can never
produce a level message (so nothing is clamped or skipped). -/
theorem C2_out_of_range_index_fails {α : Type} (parseFloat : String → Option α)
    (readFile : String → Option (List Nat)) (map_dir : String)
    (level : LevelModel α) (door : DoorModel)
    (hdoor : door ∈ level.doors)
    (hidx : (level.vertices.length : Int) ≤ door.start_idx ∨
      (level.vertices.length : Int) ≤ door.end_idx) :
    isError (level_msg parseFloat readFile map_dir level) = true := by
  rw [isError_eq_true_iff]
  intro m hm
  rw [level_msg_ok_iff] at hm
  obtain ⟨imgs, doors, -, hdoors, -⟩ := hm
  obtain ⟨dm, hdm⟩ := mapExcept_ok_of_mem hdoors door hdoor
  rw [door_msg_ok_iff] at hdm
  obtain ⟨nm, v1, v2, md, f, dir, ty, -, h2, h3, -⟩ := hdm
  rcases hidx with h | h
  · rw [pyGet_none_of_len_le _ _ h] at h2
    cases h2
  · rw [pyGet_none_of_len_le _ _ h] at h3
    cases h3

/-- Witness for C2: a door referencing vertex 5 of a two-vertex level. -/
theorem C2_out_of_range_index_fails_witness :
    isError (level_msg wPF wRF "" wLevelBadIdx) = true :=
  C2_out_of_range_index_fails wPF wRF "" wLevelBadIdx wDoorBad
    (by decide) (Or.inl (by decide))

/-- C3: a door whose parameters all resolve builds successfully for every
`type` string, and the `type` string maps through `doorTypeOf`:
`sliding`/`hinged`/`double_sliding`/`double_hinged` map to their categories
and any other string maps to the undefined category (no exception). -/
theorem C3_door_type_mapping {α : Type} (parseFloat : String → Option α)
    (vertices : List (VertexModel α)) (door : DoorModel)
    (nm md dir ty : String) (f : α) (v1 v2 : VertexModel α)
    (hnm : door.params.lookup "name" = some nm)
    (hv1 : pyGet vertices door.start_idx = some v1)
    (hv2 : pyGet vertices door.end_idx = some v2)
    (hmd : door.params.lookup "motion_degrees" = some md)
    (hf : parseFloat md = some f)
    (hdir : door.params.lookup "motion_direction" = some dir)
    (hty : door.params.lookup "type" = some ty) :
    door_msg parseFloat vertices door = Except.ok
      { door_name := nm, v1_x := v1.x, v1_y := v1.y, v2_x := v2.x, v2_y := v2.y,
        motion_range := f, motion_direction := dir, door_type := doorTypeOf ty }
    ∧ doorTypeOf "sliding" = DoorType.single_sliding
    ∧ doorTypeOf "hinged" = DoorType.single_swing
    ∧ doorTypeOf "double_sliding" = DoorType.double_sliding
    ∧ doorTypeOf "double_hinged" = DoorType.double_swing
    ∧ (ty ≠ "sliding" → ty ≠ "hinged" → ty ≠ "double_sliding" →
        ty ≠ "double_hinged" → doorTypeOf ty = DoorType.undefined) := by
  refine ⟨?_, rfl, rfl, rfl, rfl, ?_⟩
  · rw [door_msg_ok_iff]
    exact ⟨nm, v1, v2, md, f, dir, ty, hnm, hv1, hv2, hmd, hf, hdir, hty, rfl⟩
  · intro h1 h2 h3 h4
    simp [doorTypeOf, h1, h2, h3, h4]

/-- Witness for C3: a door with the unrecognized type `"foo"` builds with
the undefined category and no failure. -/
theorem C3_door_type_mapping_witness :
    door_msg wPF [wVert0, wVert1] wDoorFoo = Except.ok
      { door_name := "door1", v1_x := wVert0.x, v1_y := wVert0.y,
        v2_x := wVert1.x, v2_y := wVert1.y, motion_range := 90,
        motion_direction := "1", door_type := doorTypeOf "foo" }
    ∧ doorTypeOf "sliding" = DoorType.single_sliding
    ∧ doorTypeOf "hinged" = DoorType.single_swing
    ∧ doorTypeOf "double_sliding" = DoorType.double_sliding
    ∧ doorTypeOf "double_hinged" = DoorType.double_swing
    ∧ ("foo" ≠ "sliding" → "foo" ≠ "hinged" → "foo" ≠ "double_sliding" →
        "foo" ≠ "double_hinged" → doorTypeOf "foo" = DoorType.undefined) :=
  C3_door_type_mapping wPF [wVert0, wVert1] wDoorFoo "door1" "90" "1" "foo"
    90 wVert0 wVert1 (by decide) (by decide) (by decide) (by decide)
    (by decide) (by decide) (by decide)

/-- C4: the nav-graph list depends only on the generator's answers at
indices 0..8 with the always-unidirectional flag false (no other index or
flag is queried); for each `k < 9` the list has no entry named `str(k)`
when the generator returns no lanes at `k` and exactly the one translated
entry otherwise; and that entry's edges are bidirectional exactly when the
model marks the lane bidirectional. -/
theorem C4_nav_graph_sparsity {α : Type} (gen gen' : Nat → Bool → NavGraphData α)
    (k : Nat) (hk : k < 9)
    (hagree : ∀ i, i < 9 → gen i false = gen' i false) :
    nav_graphs_msgs gen = nav_graphs_msgs gen'
    ∧ ((nav_graphs_msgs gen).filter (fun g => g.name == toString k) =
        if (gen k false).lanes.isEmpty then []
        else [graph_msg k (gen k false)])
    ∧ (graph_msg k (gen k false)).edges = (gen k false).lanes.map (fun l =>
        { v1_idx := l.idx1, v2_idx := l.idx2,
          edge_type := if l.is_bidirectional then EdgeType.bidirectional
            else EdgeType.unidirectional }) := by
  refine ⟨?_, ?_, rfl⟩
  · unfold nav_graphs_msgs
    refine List.filterMap_congr (fun i hi => ?_)
    unfold nav_graph_entry
    rw [hagree i (List.mem_range.mp hi)]
  · have hmain := filter_nav_entries gen k hk (List.range 9)
      (fun i hi => List.mem_range.mp hi) (List.nodup_range 9)
    rw [nav_graphs_msgs, hmain, if_pos (List.mem_range.mpr hk)]
    by_cases he : (gen k false).lanes.isEmpty <;> simp [nav_graph_entry, he]

/-- Witness for C4 at `wGen0` and index 0 (one bidirectional lane). -/
theorem C4_nav_graph_sparsity_witness :
    nav_graphs_msgs wGen0 = nav_graphs_msgs wGen0
    ∧ ((nav_graphs_msgs wGen0).filter (fun g => g.name == toString 0) =
        if (wGen0 0 false).lanes.isEmpty then []
        else [graph_msg 0 (wGen0 0 false)])
    ∧ (graph_msg 0 (wGen0 0 false)).edges = (wGen0 0 false).lanes.map (fun l =>
        { v1_idx := l.idx1, v2_idx := l.idx2,
          edge_type := if l.is_bidirectional then EdgeType.bidirectional
            else EdgeType.unidirectional }) :=
  C4_nav_graph_sparsity wGen0 wGen0 0 (by decide) (fun _ _ => rfl)

/-- C5: a successfully built level message has zero image entries when the
level declares no floor-plan reference and exactly one when it does. -/
theorem C5_image_count {α : Type} (parseFloat : String → Option α)
    (readFile : String → Option (List Nat)) (map_dir : String)
    (level : LevelModel α) (m : LevelMsg α)
    (h : level_msg parseFloat readFile map_dir level = Except.ok m) :
    m.images.length = if level.drawing_name = "" then 0 else 1 := by
  rw [level_msg_ok_iff] at h
  obtain ⟨imgs, doors, himgs, -, rfl⟩ := h
  rw [imagesOf_ok_iff] at himgs
  rcases himgs with ⟨he, rfl⟩ | ⟨hne, bytes, -, rfl⟩
  · simp [he]
  · simp [hne]

/-- Witness for C5 at the level with a floor plan. -/
theorem C5_image_count_witness :
    wLevelMsg.images.length = if wLevel.drawing_name = "" then 0 else 1 :=
  C5_image_count wPF wRF "" wLevel wLevelMsg rfl

/-- C6: a successfully built building message lists level names and lift
names in exactly the insertion order of the model's levels and lifts. -/
theorem C6_order_preserved {α : Type} (parseFloat : String → Option α)
    (readFile : String → Option (List Nat)) (map_dir : String)
    (building : BuildingModel α) (msg : BuildingMap α)
    (h : building_map_msg parseFloat readFile map_dir building = Except.ok msg) :
    msg.levels.map LevelMsg.name = building.levels.map (fun p => p.2.name)
    ∧ msg.lifts.map LiftMsg.name = building.lifts.map (fun p => p.2.name) := by
  rw [building_map_msg_ok_iff] at h
  obtain ⟨levels, hlv, rfl⟩ := h
  constructor
  · exact mapExcept_map_eq (fun p m hm => level_msg_name hm) hlv
  · simp [lift_msg, List.map_map]

/-- Witness for C6 at the two-level, one-lift building. -/
theorem C6_order_preserved_witness :
    wBuildingMsg.levels.map LevelMsg.name =
      wBuilding.levels.map (fun p => p.2.name)
    ∧ wBuildingMsg.lifts.map LiftMsg.name =
      wBuilding.lifts.map (fun p => p.2.name) :=
  C6_order_preserved wPF wRF "" wBuilding wBuildingMsg rfl

/-- C7: a door missing any of the required parameters `name`,
`motion_degrees`, `motion_direction`, `type`, or whose `motion_degrees`
does not parse, makes the level build fail (no default is substituted);
and a door message that is built carries each field verbatim from the
parameter bag. -/
theorem C7_required_door_params {α : Type} (parseFloat : String → Option α)
    (readFile : String → Option (List Nat)) (map_dir : String)
    (level : LevelModel α) (door : DoorModel)
    (hdoor : door ∈ level.doors) :
    ((door.params.lookup "name" = none ∨
      door.params.lookup "motion_degrees" = none ∨
      door.params.lookup "motion_direction" = none ∨
      door.params.lookup "type" = none ∨
      (∃ s, door.params.lookup "motion_degrees" = some s ∧
        parseFloat s = none)) →
      isError (level_msg parseFloat readFile map_dir level) = true)
    ∧ (∀ m : DoorMsg α, door_msg parseFloat level.vertices door = Except.ok m →
        door.params.lookup "name" = some m.door_name ∧
        (∃ md, door.params.lookup "motion_degrees" = some md ∧
          parseFloat md = some m.motion_range) ∧
        door.params.lookup "motion_direction" = some m.motion_direction ∧
        (∃ ty, door.params.lookup "type" = some ty ∧
          m.door_type = doorTypeOf ty)) := by
  constructor
  · intro hmiss
    rw [isError_eq_true_iff]
    intro m hm
    rw [level_msg_ok_iff] at hm
    obtain ⟨imgs, doors, -, hdoors, -⟩ := hm
    obtain ⟨dm, hdm⟩ := mapExcept_ok_of_mem hdoors door hdoor
    rw [door_msg_ok_iff] at hdm
    obtain ⟨nm, v1, v2, md, f, dir, ty, h1, -, -, h4, h5, h6, h7, -⟩ := hdm
    rcases hmiss with h | h | h | h | ⟨s, hs, hpf⟩
    · rw [h1] at h
      cases h
    · rw [h4] at h
      cases h
    · rw [h6] at h
      cases h
    · rw [h7] at h
      cases h
    · rw [h4] at hs
      cases hs
      rw [h5] at hpf
      cases hpf
  · intro m hm
    rw [door_msg_ok_iff] at hm
    obtain ⟨nm, v1, v2, md, f, dir, ty, h1, -, -, h4, h5, h6, h7, rfl⟩ := hm
    exact ⟨h1, ⟨md, h4, h5⟩, h6, ⟨ty, h7, rfl⟩⟩

/-- Witness for C7: the level whose only door lacks `motion_direction`
fails to build. -/
theorem C7_required_door_params_witness :
    isError (level_msg wPF wRF "" wLevelMissing) = true :=
  (C7_required_door_params wPF wRF "" wLevelMissing wDoorMissing
    (by decide)).1 (Or.inr (Or.inr (Or.inl (by decide))))

/-- C8: any sequence of at least two fetch calls leaves the server state
unchanged and answers every call — whatever its request payload — with the
one stored snapshot, so every response equals the first. -/
theorem C8_idempotent_fetch {α ρ : Type} (s : ServerState α)
    (calls : List (ρ × GetBuildingMapResponse α))
    (_hN : 2 ≤ calls.length) :
    (run_fetches s calls).2 = s ∧
    (run_fetches s calls).1 =
      List.replicate calls.length { building_map := s.map_msg } :=
  run_fetches_spec s calls

/-- Witness for C8: two calls with different request payloads against the
concrete building message. -/
theorem C8_idempotent_fetch_witness :
    (run_fetches { map_msg := wBuildingMsg }
      [((0 : Nat), { building_map := wBuildingMsg }),
       ((1 : Nat), { building_map := wBuildingMsg })]).2 =
      { map_msg := wBuildingMsg }
    ∧ (run_fetches { map_msg := wBuildingMsg }
        [((0 : Nat), { building_map := wBuildingMsg }),
         ((1 : Nat), { building_map := wBuildingMsg })]).1 =
      List.replicate
        ([((0 : Nat), ({ building_map := wBuildingMsg } :
            GetBuildingMapResponse Int)),
          ((1 : Nat), { building_map := wBuildingMsg })]).length
        { building_map := wBuildingMsg } :=
  C8_idempotent_fetch { map_msg := wBuildingMsg }
    [((0 : Nat), { building_map := wBuildingMsg }),
     ((1 : Nat), { building_map := wBuildingMsg })] (by decide)

/-- C9: a floor-plan filename with no `.` does not make the build fail:
the image stage succeeds and the encoding is the entire filename, and any
successfully built level message carries that encoding. -/
theorem C9_no_dot_encoding {α : Type} (parseFloat : String → Option α)
    (readFile : String → Option (List Nat)) (map_dir : String)
    (level : LevelModel α) (data : List Nat)
    (hdn : level.drawing_name ≠ "")
    (hnodot : '.' ∉ level.drawing_name.data)
    (hread : readFile (pathJoin map_dir level.drawing_name) = some data) :
    imagesOf readFile map_dir level = Except.ok
      [{ encoding := level.drawing_name
         scale := level.transform.scale
         x_offset := level.transform.translation.1
         y_offset := level.transform.translation.2
         yaw := level.transform.rotation
         data := data }]
    ∧ ∀ m, level_msg parseFloat readFile map_dir level = Except.ok m →
        m.images.map (fun im => im.encoding) = [level.drawing_name] := by
  have h1 : imagesOf readFile map_dir level = Except.ok
      [{ encoding := pyLastSplit '.' level.drawing_name
         scale := level.transform.scale
         x_offset := level.transform.translation.1
         y_offset := level.transform.translation.2
         yaw := level.transform.rotation
         data := data }] :=
    (imagesOf_ok_iff readFile map_dir level _).mpr
      (Or.inr ⟨hdn, data, hread, rfl⟩)
  rw [pyLastSplit_no_sep '.' _ hnodot] at h1
  refine ⟨h1, ?_⟩
  intro m hm
  rw [level_msg_ok_iff] at hm
  obtain ⟨imgs, doors, himgs, -, rfl⟩ := hm
  rw [h1] at himgs
  cases himgs
  rfl

/-- Witness for C9 at the level whose floor plan is named `floorimg`. -/
theorem C9_no_dot_encoding_witness :
    imagesOf wRF "" wLevelNoDot = Except.ok
      [{ encoding := wLevelNoDot.drawing_name
         scale := wLevelNoDot.transform.scale
         x_offset := wLevelNoDot.transform.translation.1
         y_offset := wLevelNoDot.transform.translation.2
         yaw := wLevelNoDot.transform.rotation
         data := [7, 7] }]
    ∧ ∀ m, level_msg wPF wRF "" wLevelNoDot = Except.ok m →
        m.images.map (fun im => im.encoding) = [wLevelNoDot.drawing_name] :=
  C9_no_dot_encoding wPF wRF "" wLevelNoDot [7, 7]
    (by decide) (by decide) rfl

/-- C10: a door with a negative endpoint index — start or end — with
`-n ≤ i < 0` (where `n` is the vertex count) does not make the build fail:
the door builds, and each negative endpoint's coordinates are copied from
the vertex at position `n + i` (Python negative indexing), while a
non-negative endpoint reads position `i` directly. -/
theorem C10_negative_index_wraps {α : Type} (parseFloat : String → Option α)
    (vertices : List (VertexModel α)) (door : DoorModel)
    (v1 v2 : VertexModel α) (nm md dir ty : String) (f : α)
    (_hneg : door.start_idx < 0 ∨ door.end_idx < 0)
    (hs : -(vertices.length : Int) ≤ door.start_idx)
    (he : -(vertices.length : Int) ≤ door.end_idx)
    (hv1 : vertices.get? (if door.start_idx < 0
        then ((vertices.length : Int) + door.start_idx).toNat
        else door.start_idx.toNat) = some v1)
    (hv2 : vertices.get? (if door.end_idx < 0
        then ((vertices.length : Int) + door.end_idx).toNat
        else door.end_idx.toNat) = some v2)
    (hnm : door.params.lookup "name" = some nm)
    (hmd : door.params.lookup "motion_degrees" = some md)
    (hf : parseFloat md = some f)
    (hdir : door.params.lookup "motion_direction" = some dir)
    (hty : door.params.lookup "type" = some ty) :
    door_msg parseFloat vertices door = Except.ok
      { door_name := nm, v1_x := v1.x, v1_y := v1.y, v2_x := v2.x, v2_y := v2.y,
        motion_range := f, motion_direction := dir,
        door_type := doorTypeOf ty } := by
  have hstart : pyGet vertices door.start_idx = some v1 := by
    by_cases hlt : door.start_idx < 0
    · rw [pyGet_neg _ _ hlt (by omega)]
      rw [if_pos hlt] at hv1
      exact hv1
    · rw [if_neg hlt] at hv1
      unfold pyGet
      rw [if_pos (not_lt.mp hlt)]
      exact hv1
  have hend : pyGet vertices door.end_idx = some v2 := by
    by_cases hlt : door.end_idx < 0
    · rw [pyGet_neg _ _ hlt (by omega)]
      rw [if_pos hlt] at hv2
      exact hv2
    · rw [if_neg hlt] at hv2
      unfold pyGet
      rw [if_pos (not_lt.mp hlt)]
      exact hv2
  rw [door_msg_ok_iff]
  exact ⟨nm, v1, v2, md, f, dir, ty, hnm, hstart, hend, hmd, hf, hdir, hty, rfl⟩

/-- Witness for C10: a door with start index 0 and end index `-1` on a
two-vertex level builds, its end endpoint resolving to vertex 1. -/
theorem C10_negative_index_wraps_witness :
    door_msg wPF [wVert0, wVert1] wDoorNegEnd = Except.ok
      { door_name := "door1", v1_x := wVert0.x, v1_y := wVert0.y,
        v2_x := wVert1.x, v2_y := wVert1.y, motion_range := 90,
        motion_direction := "1", door_type := doorTypeOf "hinged" } :=
  C10_negative_index_wraps wPF [wVert0, wVert1] wDoorNegEnd wVert0 wVert1
    "door1" "90" "1" "hinged" 90 (Or.inr (by decide)) (by decide) (by decide)
    (by decide) (by decide) (by decide) (by decide) (by decide) (by decide)
    (by decide)

end BMapServer
